import Mathlib

/-!
Verification development for the CodeForge AI repository.

The development shallowly embeds the two modules the claims are about:

* `src/core/analyzer.py` (`CodeAnalyzer`): AST-based analysis of Python
  code and regex-based analysis of other languages, with arithmetic
  scoring formulas.
* `src/agents/code_review_agent.py` (`CodeReviewAgent._parse_review_response`):
  keyword-driven bucketing of an LLM response into fixed sections.

Python's `ast` parse trees are modelled by the inductive `PyAst`, whose
node kinds record exactly the attributes the analyzer inspects.  Python's
`re` library is external to the repository; it is abstracted as a
`RegexEngine` parameter (flags, pattern, text as strings), and every
theorem about regex-dependent code is proved for an arbitrary engine.
Python string operations used by the code (`split`, `strip`, `lower`,
substring tests) are defined at the character level so that concrete
inputs evaluate inside the kernel.
-/

/-- Kinds of Python AST nodes, carrying exactly the attributes that
`CodeAnalyzer` inspects (`ast.BoolOp.values` length, function name /
argument count / body length / docstring presence, class name, import
names, `ast.Name.id`).  All node kinds the analyzer never distinguishes
are collapsed into `otherNode`. -/
inductive PyKind where
  | ifStmt
  | whileStmt
  | forStmt
  | asyncForStmt
  | exceptHandler
  | tryStmt
  | boolOp (numValues : Nat)
  | functionDef (name : String) (numArgs : Nat) (bodyLen : Nat) (hasDocstring : Bool)
  | classDef (name : String)
  | importStmt (names : List String)
  | importFrom (module : Option String)
  | nameExpr (id : String)
  | otherNode
deriving Repr, DecidableEq

/-- A Python AST: a node kind, the node's source line (`lineno`), and the
child nodes (`ast.iter_child_nodes`). -/
inductive PyAst where
  | node (kind : PyKind) (lineno : Nat) (children : List PyAst)

/-- Kind of the root node. -/
def PyAst.kind : PyAst → PyKind
  | .node k _ _ => k

/-- Source line of the root node. -/
def PyAst.lineno : PyAst → Nat
  | .node _ l _ => l

/-- Child nodes of the root node. -/
def PyAst.children : PyAst → List PyAst
  | .node _ _ cs => cs

mutual
/-- All nodes of the tree, as `ast.walk(tree)` yields them.  Python's
`ast.walk` enumerates in breadth-first order; the analyzer only folds
node-local updates over this sequence, and every claim under study is
insensitive to the enumeration order, so the preorder enumeration of the
same node multiset is used. -/
def ast_walk : PyAst → List PyAst
  | .node k l cs => .node k l cs :: ast_walk_list cs

/-- Nodes of a forest, in preorder. -/
def ast_walk_list : List PyAst → List PyAst
  | [] => []
  | t :: ts => ast_walk t ++ ast_walk_list ts
end

mutual
/-- Number of nodes of a tree. -/
def ast_size : PyAst → Nat
  | .node _ _ cs => 1 + ast_size_list cs

/-- Number of nodes of a forest. -/
def ast_size_list : List PyAst → Nat
  | [] => 0
  | t :: ts => ast_size t + ast_size_list ts
end

/-- Well-formedness guaranteed by Python's parser: every `ast.BoolOp`
produced by `ast.parse` has at least two operands (`a and b`,
`a or b or c`, ...). -/
def wf_bool_ops (tree : PyAst) : Bool :=
  (ast_walk tree).all fun n =>
    match n.kind with
    | .boolOp v => decide (2 ≤ v)
    | _ => true

/-- A single regex match: its start offset in the text (a character
index, as Python string indexing), the full matched text (`group(0)`)
and the first capture group (`group(1)`). -/
structure RegexMatch where
  start : Nat
  group0 : String
  group1 : String
deriving Repr, DecidableEq

/-- Abstraction of Python's `re` module, which is standard-library code
external to this repository.  `finditer flags pattern text` is the list
of matches in order (`re.finditer`; `len(re.findall(...))` equals its
length), `search` decides whether `re.search` finds a match, and
`matchAtStart` decides whether `re.match` succeeds (anchored at the start
of the text).  Flags are rendered as a string: `"i"` for `re.IGNORECASE`,
`"m"` for `re.MULTILINE`, `""` for none. -/
structure RegexEngine where
  finditer : String → String → String → List RegexMatch
  search : String → String → String → Bool
  matchAtStart : String → String → String → Bool

/-- Degenerate engine that never matches; used to instantiate theorems at
concrete inputs. -/
def nullEngine : RegexEngine :=
  { finditer := fun _ _ _ => []
    search := fun _ _ _ => false
    matchAtStart := fun _ _ _ => false }

/-- Characters of a string split on a separator character, as Python's
`str.split(sep)` for a one-character separator: `n` separators yield
`n + 1` pieces. -/
def splitCharList (c : Char) : List Char → List (List Char)
  | [] => [[]]
  | x :: xs =>
    let r := splitCharList c xs
    if x = c then [] :: r
    else
      match r with
      | [] => [[x]]
      | g :: gs => (x :: g) :: gs

/-- Python's `s.split(c)` for a one-character separator `c`. -/
def pySplit (c : Char) (s : String) : List String :=
  (splitCharList c s.data).map fun l => ⟨l⟩

/-- Python's `s.strip()`: leading and trailing whitespace removed. -/
def pyStrip (s : String) : String :=
  ⟨((s.data.dropWhile Char.isWhitespace).reverse.dropWhile Char.isWhitespace).reverse⟩

/-- Python's `s.lower()` (the keyword tables under study are ASCII). -/
def pyLower (s : String) : String :=
  ⟨s.data.map Char.toLower⟩

/-- Contiguous-sublist test on character lists. -/
def infixOfB (sub : List Char) : List Char → Bool
  | [] => sub.isEmpty
  | x :: xs => sub.isPrefixOf (x :: xs) || infixOfB sub xs

/-- Python's `sub in s` substring test. -/
def strContains (s sub : String) : Bool :=
  infixOfB sub.data s.data

/-- Python's `s.startswith(p)`. -/
def pyStartsWith (s p : String) : Bool :=
  p.data.isPrefixOf s.data

/-- Number of lines of a source text, as the analyzer computes it:
`len(code.split('\n'))`. -/
def countLines (code : String) : Nat :=
  (pySplit '\n' code).length

/-- Line number of a character offset, as the analyzer computes it:
`code[:start].count('\n') + 1`. -/
def lineOfPos (code : String) (start : Nat) : Nat :=
  (code.data.take start).count '\n' + 1

/-- Regex table for one language (`language_patterns[lang]` in
`CodeAnalyzer.__init__`). -/
structure PatternTable where
  function_def : String
  class_def : String
  import_stmt : String
  variable_decl : String
  method_def : String
deriving Repr, DecidableEq

/-- JavaScript entry of `language_patterns`. -/
def javascriptPatterns : PatternTable :=
  { function_def := "function\\s+(\\w+)\\s*\\([^)]*\\)"
    class_def := "class\\s+(\\w+)"
    import_stmt := "import\\s+.*|from\\s+.*\\s+import\\s+.*|require\\s*\\([^)]+\\)"
    variable_decl := "(?:var|let|const)\\s+(\\w+)"
    method_def := "(\\w+)\\s*\\([^)]*\\)\\s*\x7b" }

/-- Java entry of `language_patterns`. -/
def javaPatterns : PatternTable :=
  { function_def := "(?:public|private|protected)?\\s*(?:static\\s+)?(?:final\\s+)?(?:synchronized\\s+)?(?:native\\s+)?(?:abstract\\s+)?(?:strictfp\\s+)?(?:<[^>]+>\\s+)?(?:[\\w\\[\\]]+\\s+)+(\\w+)\\s*\\([^)]*\\)"
    class_def := "(?:public\\s+)?(?:abstract\\s+)?(?:final\\s+)?class\\s+(\\w+)"
    import_stmt := "import\\s+.*;"
    variable_decl := "(?:public|private|protected)?\\s*(?:static\\s+)?(?:final\\s+)?(?:transient\\s+)?(?:volatile\\s+)?(?:[\\w\\[\\]]+\\s+)+(\\w+)\\s*[=;]"
    method_def := "(?:public|private|protected)?\\s*(?:static\\s+)?(?:final\\s+)?(?:synchronized\\s+)?(?:native\\s+)?(?:abstract\\s+)?(?:strictfp\\s+)?(?:<[^>]+>\\s+)?(?:[\\w\\[\\]]+\\s+)+(\\w+)\\s*\\([^)]*\\)" }

/-- Python entry of `language_patterns`. -/
def pythonPatterns : PatternTable :=
  { function_def := "def\\s+(\\w+)\\s*\\([^)]*\\)"
    class_def := "class\\s+(\\w+)"
    import_stmt := "import\\s+.*|from\\s+.*\\s+import\\s+.*"
    variable_decl := "(\\w+)\\s*="
    method_def := "def\\s+(\\w+)\\s*\\([^)]*\\)" }

/-- State of a `CodeAnalyzer` instance: the three pattern dictionaries
set by `__init__` (dictionaries are modelled as association lists in
insertion order). -/
structure CodeAnalyzer where
  security_patterns : List (String × String)
  performance_patterns : List (String × String)
  language_patterns : List (String × PatternTable)
deriving Repr, DecidableEq

/-- The analyzer built by `CodeAnalyzer.__init__` (regexes verbatim from
the source; `\x27` is the apostrophe, `\x7b` a literal brace). -/
def CodeAnalyzer.init : CodeAnalyzer :=
  { security_patterns :=
      [("sql_injection", "execute\\(.*\\+.*\\)"),
       ("xss", "innerHTML\\s*="),
       ("hardcoded_password", "password\\s*=\\s*[\"\\\x27][^\"\\\x27]+[\"\\\x27]"),
       ("unsafe_eval", "eval\\("),
       ("weak_random", "random\\.randint\\(")]
    performance_patterns :=
      [("nested_loops", "for.*:\\s*\\n.*for.*:"),
       ("inefficient_string", "\\+.*\\+.*\\+"),
       ("large_list_comp", "\\[.*for.*in.*if.*\\]")]
    language_patterns :=
      [("javascript", javascriptPatterns),
       ("java", javaPatterns),
       ("python", pythonPatterns)] }

/-- Python's `d.get(k, dflt)` on an association list. -/
def dict_get {α : Type} (d : List (String × α)) (k : String) (dflt : α) : α :=
  (d.lookup k).getD dflt

/-- Value of the `metrics` key (`CodeMetrics` dataclass in the source).
Scores are Python ints, the maintainability index a Python float; floats
are idealised as exact rationals. -/
structure CodeMetrics where
  lines_of_code : Nat
  cyclomatic_complexity : Int
  maintainability_index : ℚ
  security_score : Int
  performance_score : Int
  test_coverage : ℚ
deriving Repr, DecidableEq

/-- One entry of the `issues` list (`CodeIssue` dataclass). -/
structure CodeIssue where
  severity : String
  category : String
  message : String
  line_number : Nat
  suggestion : String
deriving Repr, DecidableEq

/-- One entry of the `issues` list inside the security / performance
analysis dictionaries (keys `type`, `line`, `description`). -/
structure PatternIssue where
  type : String
  line : Nat
  description : String
deriving Repr, DecidableEq

/-- Result dictionary of `_security_analysis`. -/
structure SecurityReport where
  score : Int
  issues : List PatternIssue
  risk_level : String
deriving Repr, DecidableEq

/-- Result dictionary of `_performance_analysis`. -/
structure PerformanceReport where
  score : Int
  issues : List PatternIssue
  optimization_level : String
deriving Repr, DecidableEq

/-- One class record of `_analyze_structure` / `_analyze_generic_structure`. -/
structure ClassInfo where
  name : String
  line : Nat
  methods : Nat
deriving Repr, DecidableEq

/-- One function record of `_analyze_structure` / `_analyze_generic_structure`. -/
structure FunctionInfo where
  name : String
  line : Nat
  args : Nat
deriving Repr, DecidableEq

/-- One import record of `_analyze_structure` / `_analyze_generic_structure`. -/
structure ImportInfo where
  line : Nat
  type : String
deriving Repr, DecidableEq

/-- Result dictionary of `_analyze_structure` / `_analyze_generic_structure`. -/
structure StructureInfo where
  classes : List ClassInfo
  functions : List FunctionInfo
  imports : List ImportInfo
  total_classes : Nat
  total_functions : Nat
  total_imports : Nat
deriving Repr, DecidableEq

/-- Result dictionary of `_analyze_complexity` and of the inline
`complexity` dictionary of `_analyze_generic_code`. -/
structure ComplexityInfo where
  cyclomatic_complexity : Int
  complexity_level : String
  nesting_depth : Int
deriving Repr, DecidableEq

/-- Loop body of `_calculate_cyclomatic_complexity`: `+1` for
`If`/`While`/`For`/`AsyncFor`, `+1` for `ExceptHandler`, and
`+ len(values) - 1` for `BoolOp`. -/
def complexityStep (complexity : Int) (node : PyAst) : Int :=
  match node.kind with
  | .ifStmt | .whileStmt | .forStmt | .asyncForStmt => complexity + 1
  | .exceptHandler => complexity + 1
  | .boolOp numValues => complexity + ((numValues : Int) - 1)
  | _ => complexity

/-- The method `_calculate_cyclomatic_complexity`: base complexity 1,
incremented over all walked nodes. -/
def calculate_cyclomatic_complexity (tree : PyAst) : Int :=
  (ast_walk tree).foldl complexityStep 1

/-- Loop body of `_calculate_nesting_depth` over `(max_depth,
current_depth)`. -/
def nestingStep (st : Int × Int) (node : PyAst) : Int × Int :=
  match node.kind with
  | .ifStmt | .forStmt | .whileStmt | .tryStmt =>
      (max st.1 (st.2 + 1), st.2 + 1)
  | .functionDef _ _ _ _ => (st.1, 0)
  | _ => st

/-- The method `_calculate_nesting_depth`. -/
def calculate_nesting_depth (tree : PyAst) : Int :=
  ((ast_walk tree).foldl nestingStep (0, 0)).1

/-- Issue record built for one regex match inside `_security_analysis`
and `_performance_analysis`. -/
def pattern_issue (code : String) (p : String × String) (m : RegexMatch) : PatternIssue :=
  { type := p.1
    line := lineOfPos code m.start
    description := "Potential " ++ p.1.replace "_" " " }

/-- The method `_security_analysis`: over every security pattern and
every `re.finditer` match (IGNORECASE), append an issue and deduct 20;
the reported score is clamped at 0, the risk level computed from the
unclamped score. -/
def security_analysis (R : RegexEngine) (a : CodeAnalyzer) (code : String) : SecurityReport :=
  let r := a.security_patterns.foldl
    (fun acc p =>
      (R.finditer "i" p.2 code).foldl
        (fun acc2 m => (acc2.1 ++ [pattern_issue code p m], acc2.2 - 20)) acc)
    (([] : List PatternIssue), (100 : Int))
  { score := max 0 r.2
    issues := r.1
    risk_level := if r.2 < 50 then "high" else if r.2 < 80 then "medium" else "low" }

/-- The method `_performance_analysis`: as `_security_analysis` with a
deduction of 15 per match and its own level thresholds. -/
def performance_analysis (R : RegexEngine) (a : CodeAnalyzer) (code : String) : PerformanceReport :=
  let r := a.performance_patterns.foldl
    (fun acc p =>
      (R.finditer "i" p.2 code).foldl
        (fun acc2 m => (acc2.1 ++ [pattern_issue code p m], acc2.2 - 15)) acc)
    (([] : List PatternIssue), (100 : Int))
  { score := max 0 r.2
    issues := r.1
    optimization_level := if r.2 < 60 then "high" else if r.2 < 80 then "medium" else "low" }

/-- The method `_calculate_security_score`: deduct 20 once per security
pattern for which `re.search` (IGNORECASE) finds any match; clamp at 0. -/
def calculate_security_score (R : RegexEngine) (a : CodeAnalyzer) (code : String) : Int :=
  max 0 (a.security_patterns.foldl
    (fun score p => if R.search "i" p.2 code then score - 20 else score) 100)

/-- The method `_calculate_performance_score`: as the security score with
a deduction of 15 per matching performance pattern. -/
def calculate_performance_score (R : RegexEngine) (a : CodeAnalyzer) (code : String) : Int :=
  max 0 (a.performance_patterns.foldl
    (fun score p => if R.search "i" p.2 code then score - 15 else score) 100)

/-- The method `_calculate_metrics`. -/
def calculate_metrics (R : RegexEngine) (a : CodeAnalyzer) (tree : PyAst) (code : String) :
    CodeMetrics :=
  let lines := countLines code
  let complexity := calculate_cyclomatic_complexity tree
  { lines_of_code := lines
    cyclomatic_complexity := complexity
    maintainability_index := max 0 (100 - (complexity : ℚ) * 2 - (lines : ℚ) * 0.1)
    security_score := calculate_security_score R a code
    performance_score := calculate_performance_score R a code
    test_coverage := 0 }

/-- The method `_find_unused_imports`: collect imported module names and
used `Name` identifiers over the walk, then report every import that is
not among the used names (Python keeps the used names in a set; only
membership is ever queried, so a list is an equivalent model). -/
def find_unused_imports (tree : PyAst) : List CodeIssue :=
  let imports := (ast_walk tree).foldl
    (fun acc n =>
      match n.kind with
      | .importStmt names => acc ++ names
      | .importFrom (some m) => acc ++ [m]
      | _ => acc) []
  let used_names := (ast_walk tree).foldl
    (fun acc n =>
      match n.kind with
      | .nameExpr id => acc ++ [id]
      | _ => acc) []
  imports.filterMap fun imp =>
    if used_names.contains imp then none
    else some
      { severity := "warning"
        category := "style"
        message := "Unused import: " ++ imp
        line_number := 1
        suggestion := "Remove unused import: " ++ imp }

/-- The method `_find_long_functions`: a warning for every `FunctionDef`
whose body has more than 20 statements. -/
def find_long_functions (tree : PyAst) : List CodeIssue :=
  (ast_walk tree).filterMap fun n =>
    match n.kind with
    | .functionDef name _ bodyLen _ =>
      if bodyLen > 20 then
        some
          { severity := "warning"
            category := "complexity"
            message := "Function " ++ name ++ " is too long (" ++ toString bodyLen ++ " lines)"
            line_number := n.lineno
            suggestion := "Consider breaking down " ++ name ++ " into smaller functions" }
      else none
    | _ => none

/-- The method `_find_complex_expressions`: an info issue for every
`BoolOp` with more than 3 operands. -/
def find_complex_expressions (tree : PyAst) : List CodeIssue :=
  (ast_walk tree).filterMap fun n =>
    match n.kind with
    | .boolOp numValues =>
      if numValues > 3 then
        some
          { severity := "info"
            category := "complexity"
            message := "Complex boolean expression"
            line_number := n.lineno
            suggestion := "Consider breaking down complex boolean expression" }
      else none
    | _ => none

/-- The method `_find_naming_issues`: a warning for every `FunctionDef`
whose name fails `re.match(r'^[a-z_][a-z0-9_]*$', name)`. -/
def find_naming_issues (R : RegexEngine) (tree : PyAst) : List CodeIssue :=
  (ast_walk tree).filterMap fun n =>
    match n.kind with
    | .functionDef name _ _ _ =>
      if R.matchAtStart "" "^[a-z_][a-z0-9_]*$" name then none
      else
        some
          { severity := "warning"
            category := "style"
            message := "Function name " ++ name ++ " should be snake_case"
            line_number := n.lineno
            suggestion := "Rename function to follow snake_case convention" }
    | _ => none

/-- The method `_find_issues` (its `code` argument is unused in the
source). -/
def find_issues (R : RegexEngine) (tree : PyAst) (_code : String) : List CodeIssue :=
  find_unused_imports tree ++ find_long_functions tree ++
    find_complex_expressions tree ++ find_naming_issues R tree

/-- The method `_analyze_structure`.  A class's `methods` field counts
the `FunctionDef` entries of `node.body`, i.e. the `FunctionDef` nodes
among the direct children. -/
def analyze_structure (tree : PyAst) : StructureInfo :=
  let classes := (ast_walk tree).filterMap fun n =>
    match n.kind with
    | .classDef name =>
      some
        { name := name
          line := n.lineno
          methods := (n.children.filter fun c =>
            match c.kind with
            | .functionDef _ _ _ _ => true
            | _ => false).length }
    | _ => none
  let functions := (ast_walk tree).filterMap fun n =>
    match n.kind with
    | .functionDef name numArgs _ _ => some { name := name, line := n.lineno, args := numArgs }
    | _ => none
  let imports := (ast_walk tree).filterMap fun n =>
    match n.kind with
    | .importStmt _ => some { line := n.lineno, type := "Import" }
    | .importFrom _ => some { line := n.lineno, type := "ImportFrom" }
    | _ => none
  { classes := classes
    functions := functions
    imports := imports
    total_classes := classes.length
    total_functions := functions.length
    total_imports := imports.length }

/-- The method `_analyze_complexity`. -/
def analyze_complexity (tree : PyAst) : ComplexityInfo :=
  let complexity := calculate_cyclomatic_complexity tree
  { cyclomatic_complexity := complexity
    complexity_level := if complexity > 10 then "high" else if complexity > 5 then "medium" else "low"
    nesting_depth := calculate_nesting_depth tree }

/-- Python's repr of a list of ints, as interpolated by the f-strings in
`_generate_suggestions`. -/
def pyListRepr (l : List Nat) : String :=
  "[" ++ String.intercalate ", " (l.map toString) ++ "]"

/-- Line numbers of lines longer than 80 characters (shared by
`_generate_suggestions` and `_generate_generic_suggestions`). -/
def long_line_numbers (code : String) : List Nat :=
  (pySplit '\n' code).enum.filterMap fun p =>
    if p.2.length > 80 then some (p.1 + 1) else none

/-- The method `_generate_suggestions`: magic-number hint (the regex
`\b\d{3,}\b`, written with escaped braces), long-line hint, and a
docstring hint per `FunctionDef` without a docstring. -/
def generate_suggestions (R : RegexEngine) (tree : PyAst) (code : String) : List String :=
  (if R.search "" "\\b\\d\x7b3,\x7d\\b" code then
      ["Consider replacing magic numbers with named constants"]
    else []) ++
  (if long_line_numbers code ≠ [] then
      ["Consider breaking long lines at lines: " ++ pyListRepr ((long_line_numbers code).take 3)]
    else []) ++
  ((ast_walk tree).filterMap fun n =>
    match n.kind with
    | .functionDef name _ _ hasDocstring =>
      if hasDocstring then none
      else some ("Add docstring to function \x27" ++ name ++ "\x27")
    | _ => none)

/-- Loop body of `_calculate_generic_complexity`: one increment per
`re.findall` match (IGNORECASE) of a control-flow keyword pattern. -/
def control_patterns : List String :=
  ["\\bif\\b", "\\belse\\b", "\\bwhile\\b", "\\bfor\\b", "\\bswitch\\b",
   "\\bcase\\b", "\\bcatch\\b", "\\btry\\b", "\\bthrow\\b", "\\breturn\\b"]

/-- The method `_calculate_generic_complexity` (its `patterns` argument
is unused in the source). -/
def calculate_generic_complexity (R : RegexEngine) (code : String) : Int :=
  control_patterns.foldl
    (fun complexity p => complexity + ((R.finditer "i" p code).length : Int)) 1

/-- Argument-count heuristic of `_analyze_generic_structure`:
`len(re.findall(r'[^,]+', text))` counts the maximal nonempty
comma-free segments, guarded by `'(' in group(0)` and applied to the
text between the first parentheses of the match. -/
def generic_arg_count (group0 : String) : Nat :=
  if strContains group0 "(" then
    let inner := (pySplit ')' ((pySplit '(' group0).getD 1 "")).getD 0 ""
    ((pySplit ',' inner).filter fun seg => seg ≠ "").length
  else 0

/-- The method `_analyze_generic_structure` (all three scans use
`re.finditer` with MULTILINE).  Note the source compares a class
*method*-count candidate's line number against the class match's
character offset. -/
def analyze_generic_structure (R : RegexEngine) (code : String) (patterns : PatternTable) :
    StructureInfo :=
  let functions : List FunctionInfo := (R.finditer "m" patterns.function_def code).map fun m =>
    { name := m.group1
      line := lineOfPos code m.start
      args := generic_arg_count m.group0 }
  let classes : List ClassInfo := (R.finditer "m" patterns.class_def code).map fun m =>
    { name := m.group1
      line := lineOfPos code m.start
      methods := (functions.filter fun f => f.line > m.start).length }
  let imports : List ImportInfo := (R.finditer "m" patterns.import_stmt code).map fun m =>
    { line := lineOfPos code m.start
      type := "import" }
  { classes := classes
    functions := functions
    imports := imports
    total_classes := classes.length
    total_functions := functions.length
    total_imports := imports.length }

/-- Inner loop of `_find_generic_issues`: number of lines after position
`i` before the next line matching the function or class pattern. -/
def generic_func_lines (R : RegexEngine) (patterns : PatternTable) (rest : List String) : Nat :=
  (rest.takeWhile fun l =>
    !(R.search "" patterns.function_def l || R.search "" patterns.class_def l)).length

/-- The method `_find_generic_issues`: long-function warnings from a
line scan, plus camelCase warnings for JavaScript function names failing
`re.match(r'^[a-z][a-zA-Z0-9]*$', name)`. -/
def find_generic_issues (R : RegexEngine) (code : String) (patterns : PatternTable)
    (language : String) : List CodeIssue :=
  let lines := pySplit '\n' code
  let longIssues := lines.enum.filterMap fun p =>
    if R.search "" patterns.function_def p.2 then
      let func_lines := generic_func_lines R patterns (lines.drop (p.1 + 1))
      if func_lines > 20 then
        some
          { severity := "warning"
            category := "complexity"
            message := "Function is too long (" ++ toString func_lines ++ " lines)"
            line_number := p.1 + 1
            suggestion := "Consider breaking down into smaller functions" }
      else none
    else none
  let namingIssues :=
    if language = "javascript" then
      (R.finditer "" patterns.function_def code).filterMap fun m =>
        if R.matchAtStart "" "^[a-z][a-zA-Z0-9]*$" m.group1 then none
        else
          some
            { severity := "warning"
              category := "style"
              message := "Function name " ++ m.group1 ++ " should be camelCase"
              line_number := lineOfPos code m.start
              suggestion := "Rename function to follow camelCase convention" }
    else []
  longIssues ++ namingIssues

/-- The method `_generate_generic_suggestions`. -/
def generate_generic_suggestions (R : RegexEngine) (code : String) (language : String) :
    List String :=
  (if R.search "" "\\b\\d\x7b3,\x7d\\b" code then
      ["Consider replacing magic numbers with named constants"]
    else []) ++
  (if long_line_numbers code ≠ [] then
      ["Consider breaking long lines at lines: " ++ pyListRepr ((long_line_numbers code).take 3)]
    else []) ++
  (if language = "javascript" then
      (if strContains code "var " then
          ["Consider using \x27let\x27 or \x27const\x27 instead of \x27var\x27"]
        else []) ++
      (if strContains code "console.log" then
          ["Consider removing console.log statements for production"]
        else [])
    else if language = "java" then
      (if strContains code "System.out.println" then
          ["Consider using a proper logging framework instead of System.out.println"]
        else [])
    else [])

/-- The method `_calculate_generic_nesting_depth`: a single pass over the
characters, incrementing on an opening brace or parenthesis and
decrementing (clamped at 0) on a closing one. -/
def calculate_generic_nesting_depth (code : String) : Int :=
  (code.data.foldl
    (fun (st : Int × Int) ch =>
      if ch = '\x7b' ∨ ch = '(' then (max st.1 (st.2 + 1), st.2 + 1)
      else if ch = '\x7d' ∨ ch = ')' then (st.1, max 0 (st.2 - 1))
      else st)
    (0, 0)).1

/-- Table selection of `_analyze_generic_code`:
`self.language_patterns.get(language, self.language_patterns['javascript'])`.
On the analyzer built by `__init__` the inner `'javascript'` lookup
always succeeds; the final fallback of the model is never taken there. -/
def generic_patterns_for (a : CodeAnalyzer) (language : String) : PatternTable :=
  dict_get a.language_patterns language
    (dict_get a.language_patterns "javascript" javascriptPatterns)

/-- Value of the analysis dictionary returned on success by both
`_analyze_python_code` and `_analyze_generic_code` (the seven fixed
keys; `structure` is a Lean keyword, hence `structureInfo`). -/
structure Analysis where
  metrics : CodeMetrics
  issues : List CodeIssue
  structureInfo : StructureInfo
  complexity : ComplexityInfo
  security : SecurityReport
  performance : PerformanceReport
  suggestions : List String
deriving Repr, DecidableEq

/-- Result of `analyze_code`: either the analysis dictionary, or an
error dictionary (`error`/`line`/`offset` for a Python syntax error;
`error`/`language` for the outer exception handler, which the total
model never reaches). -/
inductive AnalysisResult where
  | ok (analysis : Analysis)
  | syntaxError (error : String) (line : Nat) (offset : Nat)
  | analysisError (error : String) (language : String)
deriving Repr, DecidableEq

/-- Data of a raised `SyntaxError`: `str(e)`, `e.lineno`, `e.offset`. -/
structure SyntaxErrorInfo where
  msg : String
  lineno : Nat
  offset : Nat
deriving Repr, DecidableEq

/-- Abstraction of `ast.parse`, which is Python standard-library code
external to this repository: a source string either parses to a tree or
raises a `SyntaxError`. -/
structure PyParser where
  parse : String → Except SyntaxErrorInfo PyAst

/-- Success branch of `_analyze_python_code`: the seven analysis keys. -/
def python_analysis (R : RegexEngine) (a : CodeAnalyzer) (tree : PyAst) (code : String) :
    Analysis :=
  { metrics := calculate_metrics R a tree code
    issues := find_issues R tree code
    structureInfo := analyze_structure tree
    complexity := analyze_complexity tree
    security := security_analysis R a code
    performance := performance_analysis R a code
    suggestions := generate_suggestions R tree code }

/-- The method `_analyze_python_code` (its `file_path` argument is unused
in the source): parse, then analyze; a `SyntaxError` becomes the
`error`/`line`/`offset` dictionary. -/
def analyze_python_code (R : RegexEngine) (P : PyParser) (a : CodeAnalyzer) (code : String)
    (_file_path : Option String) : AnalysisResult :=
  match P.parse code with
  | .ok tree => .ok (python_analysis R a tree code)
  | .error e => .syntaxError ("Syntax error: " ++ e.msg) e.lineno e.offset

/-- The method `_analyze_generic_code` (its `file_path` argument is
unused in the source).  The metrics take the per-occurrence security and
performance scores from the analysis dictionaries. -/
def analyze_generic_code (R : RegexEngine) (a : CodeAnalyzer) (code : String)
    (_file_path : Option String) (language : String) : Analysis :=
  let patterns := generic_patterns_for a language
  let lines := countLines code
  let complexity := calculate_generic_complexity R code
  let security := security_analysis R a code
  let performance := performance_analysis R a code
  { metrics :=
      { lines_of_code := lines
        cyclomatic_complexity := complexity
        maintainability_index := max 0 (100 - (complexity : ℚ) * 2 - (lines : ℚ) * 0.1)
        security_score := security.score
        performance_score := performance.score
        test_coverage := 0 }
    issues := find_generic_issues R code patterns language
    structureInfo := analyze_generic_structure R code patterns
    complexity :=
      { cyclomatic_complexity := complexity
        complexity_level :=
          if complexity > 10 then "high" else if complexity > 5 then "medium" else "low"
        nesting_depth := calculate_generic_nesting_depth code }
    security := security
    performance := performance
    suggestions := generate_generic_suggestions R code language }

/-- The method `analyze_code` (defaults `file_path=None`,
`language="python"`): dispatch on the language.  All embedded
sub-analyses are total functions, so the outer `except Exception`
branch (`error`/`language` dictionary) is unreachable in the model. -/
def analyze_code (R : RegexEngine) (P : PyParser) (a : CodeAnalyzer) (code : String)
    (file_path : Option String) (language : String) : AnalysisResult :=
  if language = "python" then analyze_python_code R P a code file_path
  else .ok (analyze_generic_code R a code file_path language)

/-- State-passing view of `analyze_code`: the result together with the
analyzer state after the call.  No method of `CodeAnalyzer` assigns to
`self` outside `__init__`, so the final state is the initial one. -/
def analyze_code_st (R : RegexEngine) (P : PyParser) (a : CodeAnalyzer) (code : String)
    (file_path : Option String) (language : String) : AnalysisResult × CodeAnalyzer :=
  (analyze_code R P a code file_path language, a)

/-- The eight fixed sections of `_parse_review_response`. -/
inductive RSection where
  | overall_assessment
  | critical_issues
  | code_quality
  | performance
  | security
  | best_practices
  | refactoring_opportunities
  | positive_aspects
deriving Repr, DecidableEq

/-- Result dictionary of `_parse_review_response`: exactly the eight
fixed keys, `overall_assessment` a string and the others lists. -/
structure ReviewSections where
  overall_assessment : String
  critical_issues : List String
  code_quality : List String
  performance : List String
  security : List String
  best_practices : List String
  refactoring_opportunities : List String
  positive_aspects : List String
deriving Repr, DecidableEq

/-- Initial `sections` dictionary of `_parse_review_response`. -/
def emptySections : ReviewSections :=
  { overall_assessment := ""
    critical_issues := []
    code_quality := []
    performance := []
    security := []
    best_practices := []
    refactoring_opportunities := []
    positive_aspects := [] }

/-- Python's `any(keyword in line for keyword in kws)`. -/
def containsAny (line : String) (kws : List String) : Bool :=
  kws.any fun k => strContains line k

/-- Header detection of `_parse_review_response`, applied to the
stripped, lowered line; `none` leaves the current section unchanged. -/
def detect_section (lower : String) : Option RSection :=
  if containsAny lower ["overall", "assessment", "summary"] then some .overall_assessment
  else if containsAny lower ["critical", "issues", "bugs", "problems"] then some .critical_issues
  else if containsAny lower ["quality", "readability", "maintainability"] then some .code_quality
  else if strContains lower "performance" then some .performance
  else if strContains lower "security" then some .security
  else if containsAny lower ["best practices", "standards"] then some .best_practices
  else if containsAny lower ["refactor", "improvement"] then some .refactoring_opportunities
  else if containsAny lower ["positive", "good", "well"] then some .positive_aspects
  else none

/-- Bullet handling for list sections: `line[1:].strip()` when the line
starts with `-` or with the (mojibake) bullet sequence `â€¢`, else the
line itself.  Python drops a single character in both cases. -/
def bulletStrip (line : String) : String :=
  if pyStartsWith line "-" || pyStartsWith line "â€¢" then
    pyStrip ⟨line.data.drop 1⟩
  else line

/-- Content update of `_parse_review_response`: the overall assessment
accumulates `line + " "`, every other section appends the
bullet-stripped line. -/
def addLine (s : ReviewSections) (sec : RSection) (line : String) : ReviewSections :=
  match sec with
  | .overall_assessment => { s with overall_assessment := s.overall_assessment ++ line ++ " " }
  | .critical_issues => { s with critical_issues := s.critical_issues ++ [bulletStrip line] }
  | .code_quality => { s with code_quality := s.code_quality ++ [bulletStrip line] }
  | .performance => { s with performance := s.performance ++ [bulletStrip line] }
  | .security => { s with security := s.security ++ [bulletStrip line] }
  | .best_practices => { s with best_practices := s.best_practices ++ [bulletStrip line] }
  | .refactoring_opportunities =>
      { s with refactoring_opportunities := s.refactoring_opportunities ++ [bulletStrip line] }
  | .positive_aspects => { s with positive_aspects := s.positive_aspects ++ [bulletStrip line] }

/-- Loop body of `_parse_review_response` over `(current_section,
sections)`: strip, skip empty lines, update the current section from the
lowered line, then append unless no section is current or the line
starts with `#`. -/
def parse_step (st : Option RSection × ReviewSections) (rawLine : String) :
    Option RSection × ReviewSections :=
  let line := pyStrip rawLine
  if line = "" then st
  else
    let cur := match detect_section (pyLower line) with
      | some s => some s
      | none => st.1
    match cur with
    | some sec =>
      if pyStartsWith line "#" then (cur, st.2) else (cur, addLine st.2 sec line)
    | none => (cur, st.2)

/-- The method `_parse_review_response`: split the response on newlines
and fold the loop body from no current section and empty sections. -/
def parse_review_response (response : String) : ReviewSections :=
  ((pySplit '\n' response).foldl parse_step (none, emptySections)).2

/-- Modelled from the spec sentence of C7, as amended: the stripped
lines assigned to section `sec`, starting from current section `cur` —
each non-empty line that does not start with `#` goes to the section of
the most recently matched keyword header (header lines included),
lines before any match are dropped. -/
def assigned_lines (sec : RSection) : Option RSection → List String → List String
  | _, [] => []
  | cur, l :: ls =>
    let line := pyStrip l
    if line = "" then assigned_lines sec cur ls
    else
      let cur' := match detect_section (pyLower line) with
        | some s => some s
        | none => cur
      (if cur' = some sec ∧ pyStartsWith line "#" = false then [line] else []) ++
        assigned_lines sec cur' ls

/-- Modelled from the spec sentence of C7, as stated: as
`assigned_lines` but with *every* non-empty line assigned, including
lines starting with `#`. -/
def assigned_lines_claim (sec : RSection) : Option RSection → List String → List String
  | _, [] => []
  | cur, l :: ls =>
    let line := pyStrip l
    if line = "" then assigned_lines_claim sec cur ls
    else
      let cur' := match detect_section (pyLower line) with
        | some s => some s
        | none => cur
      (if cur' = some sec then [line] else []) ++ assigned_lines_claim sec cur' ls

/-- Concatenation of lines, each followed by one space, as the overall
assessment accumulates them. -/
def joinWithSpace : List String → String
  | [] => ""
  | l :: ls => l ++ " " ++ joinWithSpace ls

/-- Sections assembled from a per-section line assignment: the overall
assessment joins its lines with trailing spaces, every other section
lists its bullet-stripped lines. -/
def sections_of_assignment (f : RSection → List String) : ReviewSections :=
  { overall_assessment := joinWithSpace (f .overall_assessment)
    critical_issues := (f .critical_issues).map bulletStrip
    code_quality := (f .code_quality).map bulletStrip
    performance := (f .performance).map bulletStrip
    security := (f .security).map bulletStrip
    best_practices := (f .best_practices).map bulletStrip
    refactoring_opportunities := (f .refactoring_opportunities).map bulletStrip
    positive_aspects := (f .positive_aspects).map bulletStrip }

/-- Reference parse following the amended wording of C7. -/
def spec_parse (response : String) : ReviewSections :=
  sections_of_assignment fun sec => assigned_lines sec none (pySplit '\n' response)

/-- Reference parse following the wording of C7 as stated (no special
treatment of lines starting with `#`). -/
def claim_parse (response : String) : ReviewSections :=
  sections_of_assignment fun sec => assigned_lines_claim sec none (pySplit '\n' response)

/-- Modelled from the spec sentence of C1: whether an AST node is a
branching node (conditionals, loops, exception handlers, boolean
operations). -/
def isBranchingKind : PyKind → Bool
  | .ifStmt | .whileStmt | .forStmt | .asyncForStmt | .exceptHandler | .boolOp _ => true
  | _ => false

/-- Modelled from the spec sentence of C1: the number of branching nodes
of the tree, each node counted once. -/
def branching_node_count (tree : PyAst) : Nat :=
  ((ast_walk tree).filter fun n => isBranchingKind n.kind).length

/-- Weight that `_calculate_cyclomatic_complexity` adds for one node: 1
for conditionals, loops and exception handlers, the number of operands
minus one for a boolean operation, 0 otherwise. -/
def branch_weight (k : PyKind) : Int :=
  match k with
  | .ifStmt | .whileStmt | .forStmt | .asyncForStmt => 1
  | .exceptHandler => 1
  | .boolOp numValues => (numValues : Int) - 1
  | _ => 0

mutual
/-- Structural sum of the branch weights of all nodes of a tree. -/
def branch_weight_sum : PyAst → Int
  | .node k _ cs => branch_weight k + branch_weight_sum_list cs

/-- Structural sum of the branch weights of all nodes of a forest. -/
def branch_weight_sum_list : List PyAst → Int
  | [] => 0
  | t :: ts => branch_weight_sum t + branch_weight_sum_list ts
end

/-- Modelled from the spec sentences of C2: the maintainability formula
`max(0, 100 - 2*complexity - 0.1*lines)`. -/
def maintainability_formula (complexity : Int) (lines : Nat) : ℚ :=
  max 0 (100 - 2 * (complexity : ℚ) - 0.1 * (lines : ℚ))

/-- Total number of matches of a pattern dictionary in a text. -/
def total_match_count (R : RegexEngine) (flags : String) (ps : List (String × String))
    (code : String) : Nat :=
  (ps.map fun p => (R.finditer flags p.2 code).length).sum

/-- Issue records of `_security_analysis` / `_performance_analysis` in
closed form: one record per match, in pattern order. -/
def pattern_issues (R : RegexEngine) (flags : String) (ps : List (String × String))
    (code : String) : List PatternIssue :=
  ps.flatMap fun p => (R.finditer flags p.2 code).map (pattern_issue code p)

/-- Number of patterns of a dictionary for which `re.search` finds a
match. -/
def matched_pattern_count (R : RegexEngine) (flags : String) (ps : List (String × String))
    (code : String) : Nat :=
  (ps.filter fun p => R.search flags p.2 code).length

/-- Modelled from the spec sentence of C1 for the generic path: the total
number of control-flow keyword matches in the text. -/
def control_match_total (R : RegexEngine) (code : String) : Nat :=
  (control_patterns.map fun p => (R.finditer "i" p code).length).sum

/-- Concrete tree with a three-operand `BoolOp` (`a or b or c`): one
branching node of weight 2. -/
def exBoolOpTree : PyAst :=
  .node .otherNode 1
    [.node (.boolOp 3) 1
      [.node (.nameExpr "a") 1 [], .node (.nameExpr "b") 1 [], .node (.nameExpr "c") 1 []]]

/-- Concrete well-formed tree with one `If` node and one two-operand
`BoolOp`. -/
def exIfTree : PyAst :=
  .node .otherNode 1
    [.node .ifStmt 2
      [.node (.boolOp 2) 2 [.node (.nameExpr "a") 2 [], .node (.nameExpr "b") 2 []]]]

/-- Concrete parser that always reports a syntax error. -/
def errParser : PyParser :=
  ⟨fun _ => .error { msg := "invalid syntax", lineno := 3, offset := 7 }⟩

/-- Concrete parser that always returns a one-node module. -/
def okParser : PyParser :=
  ⟨fun _ => .ok (.node .otherNode 1 [])⟩

/-- Sections extended on the right by a per-section line assignment;
`merge_sections emptySections` agrees with `sections_of_assignment`. -/
def merge_sections (s : ReviewSections) (f : RSection → List String) : ReviewSections :=
  { overall_assessment := s.overall_assessment ++ joinWithSpace (f .overall_assessment)
    critical_issues := s.critical_issues ++ (f .critical_issues).map bulletStrip
    code_quality := s.code_quality ++ (f .code_quality).map bulletStrip
    performance := s.performance ++ (f .performance).map bulletStrip
    security := s.security ++ (f .security).map bulletStrip
    best_practices := s.best_practices ++ (f .best_practices).map bulletStrip
    refactoring_opportunities :=
      s.refactoring_opportunities ++ (f .refactoring_opportunities).map bulletStrip
    positive_aspects := s.positive_aspects ++ (f .positive_aspects).map bulletStrip }

theorem foldl_add_gen {α : Type} (f : α → Int) :
    ∀ (l : List α) (c : Int), l.foldl (fun acc x => acc + f x) c = c + (l.map f).sum
  | [], c => by simp
  | x :: xs, c => by
    simp only [List.foldl_cons, List.map_cons, List.sum_cons, foldl_add_gen f xs]
    ring

theorem complexityStep_eq :
    complexityStep = fun (c : Int) (n : PyAst) => c + branch_weight n.kind := by
  funext c n
  cases n with
  | node k l cs => cases k <;> simp [complexityStep, branch_weight, PyAst.kind]

mutual
theorem walk_weight_sum :
    ∀ t : PyAst, ((ast_walk t).map fun n => branch_weight n.kind).sum = branch_weight_sum t
  | .node k l cs => by
    simp only [ast_walk, List.map_cons, List.sum_cons, branch_weight_sum,
      walk_weight_sum_list cs]
    rfl

theorem walk_weight_sum_list :
    ∀ ts : List PyAst,
      ((ast_walk_list ts).map fun n => branch_weight n.kind).sum = branch_weight_sum_list ts
  | [] => by simp [ast_walk_list, branch_weight_sum_list]
  | t :: ts => by
    simp [ast_walk_list, branch_weight_sum_list, walk_weight_sum t, walk_weight_sum_list ts]
end

theorem cyclomatic_closed_form (tree : PyAst) :
    calculate_cyclomatic_complexity tree = 1 + branch_weight_sum tree := by
  rw [calculate_cyclomatic_complexity, complexityStep_eq, foldl_add_gen, walk_weight_sum]

theorem generic_complexity_closed_form (R : RegexEngine) (code : String) :
    calculate_generic_complexity R code = 1 + (control_match_total R code : Int) := by
  rw [calculate_generic_complexity, foldl_add_gen
    (fun p => ((R.finditer "i" p code).length : Int)), control_match_total]
  push_cast [List.map_map]
  rfl

/-- Claim C1, counterexample: on a tree whose only branching node is a
three-operand `BoolOp` (one branching AST node), the computed cyclomatic
complexity is 3, not 1 plus the number of branching nodes (2): the code
weights a `BoolOp` by its operand count minus one. -/
theorem c1_counterexample :
    calculate_cyclomatic_complexity exBoolOpTree ≠
      1 + (branching_node_count exBoolOpTree : Int) := by decide

/-- Claim C1, amended: the cyclomatic complexity of a parsed Python
source equals 1 plus the weighted number of branching nodes, where each
conditional, loop and exception handler counts once and each boolean
operation counts its number of operands minus one; the generic
complexity equals 1 plus the number of control-flow keyword matches
found in the text. -/
theorem c1_amended_complexity :
    (∀ tree : PyAst, calculate_cyclomatic_complexity tree = 1 + branch_weight_sum tree) ∧
    (∀ (R : RegexEngine) (code : String),
      calculate_generic_complexity R code = 1 + (control_match_total R code : Int)) :=
  ⟨cyclomatic_closed_form, generic_complexity_closed_form⟩

mutual
theorem walk_length_aux : ∀ t : PyAst, (ast_walk t).length = ast_size t
  | .node k l cs => by
    simp [ast_walk, ast_size, walk_length_list_aux cs]
    omega

theorem walk_length_list_aux : ∀ ts : List PyAst, (ast_walk_list ts).length = ast_size_list ts
  | [] => by simp [ast_walk_list, ast_size_list]
  | t :: ts => by
    simp [ast_walk_list, ast_size_list, walk_length_aux t, walk_length_list_aux ts]
end

/-- Claim C6: the analyzer is a bounded single pass — `ast.walk` visits
each node of the finite parse tree exactly once (the walked list has
exactly as many entries as the tree has nodes), and every embedded
sub-analysis is a total function over this finite enumeration, so
`analyze_code` terminates on every input. -/
theorem c6_single_pass : ∀ tree : PyAst, (ast_walk tree).length = ast_size tree :=
  walk_length_aux

/-- Claim C2: on both the Python (AST) path and the non-Python (regex)
path, the maintainability index in the metrics equals
`max(0, 100 - 2*complexity - 0.1*lines)` applied to that path's
cyclomatic complexity and the line count of the source. -/
theorem c2_maintainability_formula :
    (∀ (R : RegexEngine) (a : CodeAnalyzer) (tree : PyAst) (code : String),
      (calculate_metrics R a tree code).maintainability_index =
        maintainability_formula (calculate_cyclomatic_complexity tree) (countLines code)) ∧
    (∀ (R : RegexEngine) (a : CodeAnalyzer) (code : String) (fp : Option String) (lang : String),
      (analyze_generic_code R a code fp lang).metrics.maintainability_index =
        maintainability_formula (calculate_generic_complexity R code) (countLines code)) := by
  constructor
  · intro R a tree code
    simp only [calculate_metrics, maintainability_formula]
    congr 1
    ring
  · intro R a code fp lang
    simp only [analyze_generic_code, maintainability_formula]
    congr 1
    ring

/-- Claim C3: `analyze_code` dispatches on the language — `"python"`
goes to the AST analysis, anything else to the regex analysis, and a
language without its own table falls back to the JavaScript table. -/
theorem c3_language_dispatch :
    (∀ (R : RegexEngine) (P : PyParser) (a : CodeAnalyzer) (code : String) (fp : Option String),
      analyze_code R P a code fp "python" = analyze_python_code R P a code fp) ∧
    (∀ (R : RegexEngine) (P : PyParser) (a : CodeAnalyzer) (code : String) (fp : Option String)
        (lang : String), lang ≠ "python" →
      analyze_code R P a code fp lang = .ok (analyze_generic_code R a code fp lang)) ∧
    (∀ lang : String, lang ≠ "javascript" → lang ≠ "java" → lang ≠ "python" →
      generic_patterns_for CodeAnalyzer.init lang = javascriptPatterns) := by
  refine ⟨fun R P a code fp => by simp [analyze_code],
    fun R P a code fp lang h => by simp [analyze_code, h],
    fun lang h1 h2 h3 => ?_⟩
  have b1 : (lang == "javascript") = false := beq_eq_false_iff_ne.mpr h1
  have b2 : (lang == "java") = false := beq_eq_false_iff_ne.mpr h2
  have b3 : (lang == "python") = false := beq_eq_false_iff_ne.mpr h3
  simp [generic_patterns_for, dict_get, CodeAnalyzer.init, List.lookup, b1, b2, b3]

/-- Witness for C3 at the table-less language `"ruby"`. -/
theorem c3_language_dispatch_witness :
    ("ruby" ≠ "python" ∧
      analyze_code nullEngine okParser CodeAnalyzer.init "x = 1" none "ruby" =
        .ok (analyze_generic_code nullEngine CodeAnalyzer.init "x = 1" none "ruby")) ∧
    ("ruby" ≠ "javascript" ∧ "ruby" ≠ "java" ∧
      generic_patterns_for CodeAnalyzer.init "ruby" = javascriptPatterns) :=
  ⟨⟨by decide,
    c3_language_dispatch.2.1 nullEngine okParser CodeAnalyzer.init "x = 1" none "ruby"
      (by decide)⟩,
   ⟨by decide, by decide,
    c3_language_dispatch.2.2 "ruby" (by decide) (by decide) (by decide)⟩⟩

theorem scan_inner (pen : Int) (mkI : RegexMatch → PatternIssue) :
    ∀ (ms : List RegexMatch) (acc : List PatternIssue × Int),
      ms.foldl (fun a m => (a.1 ++ [mkI m], a.2 - pen)) acc =
        (acc.1 ++ ms.map mkI, acc.2 - pen * ms.length)
  | [], acc => by simp
  | m :: ms, acc => by
    rw [List.foldl_cons, scan_inner pen mkI ms]
    simp only [Prod.mk.injEq, List.map_cons, List.append_assoc, List.singleton_append,
      List.length_cons]
    refine ⟨trivial, ?_⟩
    push_cast
    ring

theorem scan_outer (R : RegexEngine) (flags code : String) (pen : Int) :
    ∀ (ps : List (String × String)) (acc : List PatternIssue × Int),
      ps.foldl (fun a p => (R.finditer flags p.2 code).foldl
          (fun a2 m => (a2.1 ++ [pattern_issue code p m], a2.2 - pen)) a) acc =
        (acc.1 ++ pattern_issues R flags ps code,
         acc.2 - pen * total_match_count R flags ps code)
  | [], acc => by simp [pattern_issues, total_match_count]
  | p :: ps, acc => by
    rw [List.foldl_cons, scan_inner pen (pattern_issue code p) _ acc,
      scan_outer R flags code pen ps]
    simp only [pattern_issues, total_match_count, List.flatMap_cons, List.map_cons,
      List.sum_cons, Prod.mk.injEq, List.append_assoc]
    refine ⟨trivial, ?_⟩
    push_cast
    ring

/-- Claim C4: the security and performance analyses are pattern scans —
starting from 100, each security match deducts 20 and each performance
match 15, one issue record (with the match's line number, see
`pattern_issue`) is appended per match, and the reported score is the
clamped `max 0`. -/
theorem c4_pattern_penalties :
    ∀ (R : RegexEngine) (a : CodeAnalyzer) (code : String),
      (security_analysis R a code).score =
        max 0 (100 - 20 * (total_match_count R "i" a.security_patterns code : Int)) ∧
      (security_analysis R a code).issues = pattern_issues R "i" a.security_patterns code ∧
      (performance_analysis R a code).score =
        max 0 (100 - 15 * (total_match_count R "i" a.performance_patterns code : Int)) ∧
      (performance_analysis R a code).issues =
        pattern_issues R "i" a.performance_patterns code := by
  intro R a code
  have hs := scan_outer R "i" code 20 a.security_patterns ([], 100)
  have hp := scan_outer R "i" code 15 a.performance_patterns ([], 100)
  refine ⟨?_, ?_, ?_, ?_⟩ <;> simp [security_analysis, performance_analysis, hs, hp]

/-- Claim C5: the analyzer keeps no persistent state — the analyzer's
fields after a call are the fields before it, and a second call with
equal arguments on the resulting state returns an equal result. -/
theorem c5_stateless :
    ∀ (R : RegexEngine) (P : PyParser) (a : CodeAnalyzer) (code : String) (fp : Option String)
      (lang : String),
      (analyze_code_st R P a code fp lang).2 = a ∧
      (analyze_code_st R P a code fp lang).2.security_patterns = a.security_patterns ∧
      (analyze_code_st R P a code fp lang).2.performance_patterns = a.performance_patterns ∧
      (analyze_code_st R P a code fp lang).2.language_patterns = a.language_patterns ∧
      (analyze_code_st R P (analyze_code_st R P a code fp lang).2 code fp lang).1 =
        (analyze_code_st R P a code fp lang).1 :=
  fun _ _ _ _ _ _ => ⟨rfl, rfl, rfl, rfl, rfl⟩

/-- Claim C8: `analyze_code` reports errors as values — every call
returns either the analysis dictionary or an error dictionary, and a
Python syntax error yields the `error`/`line`/`offset` dictionary built
from the raised `SyntaxError`. -/
theorem c8_error_values :
    (∀ (R : RegexEngine) (P : PyParser) (a : CodeAnalyzer) (code : String) (fp : Option String)
        (lang : String),
      (∃ x, analyze_code R P a code fp lang = .ok x) ∨
        ∃ m l o, analyze_code R P a code fp lang = .syntaxError m l o) ∧
    (∀ (R : RegexEngine) (P : PyParser) (a : CodeAnalyzer) (code : String) (fp : Option String)
        (e : SyntaxErrorInfo), P.parse code = .error e →
      analyze_code R P a code fp "python" =
        .syntaxError ("Syntax error: " ++ e.msg) e.lineno e.offset) := by
  constructor
  · intro R P a code fp lang
    by_cases h : lang = "python"
    · subst h
      rcases hp : P.parse code with e | tree
      · refine .inr ⟨"Syntax error: " ++ e.msg, e.lineno, e.offset, ?_⟩
        simp [analyze_code, analyze_python_code, hp]
      · refine .inl ⟨python_analysis R a tree code, ?_⟩
        simp [analyze_code, analyze_python_code, hp]
    · refine .inl ⟨analyze_generic_code R a code fp lang, ?_⟩
      simp [analyze_code, h]
  · intro R P a code fp e he
    simp [analyze_code, analyze_python_code, he]

/-- Witness for C8 at a parser reporting a syntax error at line 3,
offset 7. -/
theorem c8_error_values_witness :
    errParser.parse "def f(:" = .error { msg := "invalid syntax", lineno := 3, offset := 7 } ∧
    analyze_code nullEngine errParser CodeAnalyzer.init "def f(:" none "python" =
      .syntaxError ("Syntax error: " ++ "invalid syntax") 3 7 :=
  ⟨rfl, c8_error_values.2 nullEngine errParser CodeAnalyzer.init "def f(:" none
    { msg := "invalid syntax", lineno := 3, offset := 7 } rfl⟩

theorem cond_fold_eq {α : Type} (pen : Int) (cond : α → Bool) :
    ∀ (l : List α) (c : Int),
      l.foldl (fun s p => if cond p then s - pen else s) c =
        c - pen * ((l.filter cond).length : Int)
  | [], c => by simp
  | x :: xs, c => by
    rw [List.foldl_cons, cond_fold_eq pen cond xs]
    by_cases h : cond x
    · simp only [h, if_true, List.filter_cons, List.length_cons]
      push_cast
      ring
    · simp only [h, Bool.false_eq_true, if_false, List.filter_cons]

theorem security_score_closed_form (R : RegexEngine) (a : CodeAnalyzer) (code : String) :
    calculate_security_score R a code =
      max 0 (100 - 20 * (matched_pattern_count R "i" a.security_patterns code : Int)) := by
  rw [calculate_security_score, cond_fold_eq, matched_pattern_count]

theorem performance_score_closed_form (R : RegexEngine) (a : CodeAnalyzer) (code : String) :
    calculate_performance_score R a code =
      max 0 (100 - 15 * (matched_pattern_count R "i" a.performance_patterns code : Int)) := by
  rw [calculate_performance_score, cond_fold_eq, matched_pattern_count]

theorem security_analysis_score (R : RegexEngine) (a : CodeAnalyzer) (code : String) :
    (security_analysis R a code).score =
      max 0 (100 - 20 * (total_match_count R "i" a.security_patterns code : Int)) := by
  have hs := scan_outer R "i" code 20 a.security_patterns ([], 100)
  simp [security_analysis, hs]

theorem performance_analysis_score (R : RegexEngine) (a : CodeAnalyzer) (code : String) :
    (performance_analysis R a code).score =
      max 0 (100 - 15 * (total_match_count R "i" a.performance_patterns code : Int)) := by
  have hp := scan_outer R "i" code 15 a.performance_patterns ([], 100)
  simp [performance_analysis, hp]

theorem branch_weight_nonneg (k : PyKind)
    (h : (match k with | .boolOp v => decide (2 ≤ v) | _ => true) = true) :
    0 ≤ branch_weight k := by
  cases k <;> simp_all [branch_weight]
  omega

theorem branch_weight_sum_nonneg (tree : PyAst) (h : wf_bool_ops tree = true) :
    0 ≤ branch_weight_sum tree := by
  rw [← walk_weight_sum]
  apply List.sum_nonneg
  intro x hx
  simp only [List.mem_map] at hx
  obtain ⟨n, hn, rfl⟩ := hx
  rw [wf_bool_ops, List.all_eq_true] at h
  exact branch_weight_nonneg n.kind (h n hn)

/-- Claim C9: on every successful analysis the reported numbers satisfy
the fixed bounds — all four security and performance scores lie in
`[0, 100]`, the maintainability index is at least 0 on both paths, and
the cyclomatic complexity is at least 1 on both paths (for parsed Python
code, using that the parser only produces boolean operations with at
least two operands). -/
theorem c9_metric_bounds (R : RegexEngine) (a : CodeAnalyzer) (tree : PyAst) (code : String)
    (fp : Option String) (lang : String) (h : wf_bool_ops tree = true) :
    0 ≤ (calculate_metrics R a tree code).security_score ∧
    (calculate_metrics R a tree code).security_score ≤ 100 ∧
    0 ≤ (calculate_metrics R a tree code).performance_score ∧
    (calculate_metrics R a tree code).performance_score ≤ 100 ∧
    0 ≤ (calculate_metrics R a tree code).maintainability_index ∧
    1 ≤ (calculate_metrics R a tree code).cyclomatic_complexity ∧
    0 ≤ (security_analysis R a code).score ∧ (security_analysis R a code).score ≤ 100 ∧
    0 ≤ (performance_analysis R a code).score ∧ (performance_analysis R a code).score ≤ 100 ∧
    0 ≤ (analyze_generic_code R a code fp lang).metrics.maintainability_index ∧
    1 ≤ (analyze_generic_code R a code fp lang).metrics.cyclomatic_complexity := by
  have hms : (calculate_metrics R a tree code).security_score =
      calculate_security_score R a code := rfl
  have hmp : (calculate_metrics R a tree code).performance_score =
      calculate_performance_score R a code := rfl
  have hcy : (calculate_metrics R a tree code).cyclomatic_complexity =
      calculate_cyclomatic_complexity tree := rfl
  refine ⟨?_, ?_, ?_, ?_, ?_, ?_, ?_, ?_, ?_, ?_, ?_, ?_⟩
  · rw [hms, security_score_closed_form]; exact le_max_left _ _
  · rw [hms, security_score_closed_form]
    have : (0 : Int) ≤ (matched_pattern_count R "i" a.security_patterns code : Int) :=
      Int.natCast_nonneg _
    omega
  · rw [hmp, performance_score_closed_form]; exact le_max_left _ _
  · rw [hmp, performance_score_closed_form]
    have : (0 : Int) ≤ (matched_pattern_count R "i" a.performance_patterns code : Int) :=
      Int.natCast_nonneg _
    omega
  · simp only [calculate_metrics]; exact le_max_left _ _
  · rw [hcy, cyclomatic_closed_form]
    have := branch_weight_sum_nonneg tree h
    omega
  · rw [security_analysis_score]; exact le_max_left _ _
  · rw [security_analysis_score]
    have : (0 : Int) ≤ (total_match_count R "i" a.security_patterns code : Int) :=
      Int.natCast_nonneg _
    omega
  · rw [performance_analysis_score]; exact le_max_left _ _
  · rw [performance_analysis_score]
    have : (0 : Int) ≤ (total_match_count R "i" a.performance_patterns code : Int) :=
      Int.natCast_nonneg _
    omega
  · simp only [analyze_generic_code]; exact le_max_left _ _
  · have hg : (analyze_generic_code R a code fp lang).metrics.cyclomatic_complexity =
        calculate_generic_complexity R code := rfl
    rw [hg, generic_complexity_closed_form]
    have : (0 : Int) ≤ (control_match_total R code : Int) := Int.natCast_nonneg _
    omega

/-- Witness for C9 at a concrete well-formed tree. -/
theorem c9_metric_bounds_witness :
    wf_bool_ops exIfTree = true ∧
    1 ≤ (calculate_metrics nullEngine CodeAnalyzer.init exIfTree "x = 1").cyclomatic_complexity ∧
    0 ≤ (calculate_metrics nullEngine CodeAnalyzer.init exIfTree "x = 1").security_score :=
  ⟨by decide,
   (c9_metric_bounds nullEngine CodeAnalyzer.init exIfTree "x = 1" none "ruby"
      (by decide)).2.2.2.2.2.1,
   (c9_metric_bounds nullEngine CodeAnalyzer.init exIfTree "x = 1" none "ruby" (by decide)).1⟩

theorem count_le_sum {α : Type} (cond : α → Bool) (f : α → Nat) :
    ∀ l : List α, (∀ p ∈ l, cond p = true → 1 ≤ f p) →
      (l.filter cond).length ≤ (l.map f).sum
  | [], _ => by simp
  | x :: xs, h => by
    have ih := count_le_sum cond f xs fun p hp => h p (List.mem_cons_of_mem x hp)
    by_cases hc : cond x
    · have h1 := h x (List.mem_cons_self x xs) hc
      simp only [List.filter_cons, hc, if_true, List.length_cons, List.map_cons, List.sum_cons]
      omega
    · simp only [List.filter_cons, hc, Bool.false_eq_true, if_false, List.map_cons,
        List.sum_cons]
      omega

/-- Claim C10: for the same code, the per-category security score stored
in the metrics dominates the per-occurrence score of the security
analysis, under the regex-engine consistency that a successful
`re.search` implies a nonempty `re.finditer`. -/
theorem c10_security_score_order (R : RegexEngine) (a : CodeAnalyzer) (tree : PyAst)
    (code : String)
    (h : ∀ p ∈ a.security_patterns, R.search "i" p.2 code = true →
      R.finditer "i" p.2 code ≠ []) :
    (security_analysis R a code).score ≤ (calculate_metrics R a tree code).security_score := by
  have h1 : (calculate_metrics R a tree code).security_score =
      calculate_security_score R a code := rfl
  rw [h1, security_analysis_score, security_score_closed_form]
  have hle : matched_pattern_count R "i" a.security_patterns code ≤
      total_match_count R "i" a.security_patterns code := by
    apply count_le_sum
    intro p hp hc
    exact List.length_pos.mpr (h p hp hc)
  have hle2 : (matched_pattern_count R "i" a.security_patterns code : Int) ≤
      (total_match_count R "i" a.security_patterns code : Int) := by exact_mod_cast hle
  omega

/-- Witness for C10 at the never-matching engine (for which the
consistency hypothesis holds vacuously). -/
theorem c10_security_score_order_witness :
    (∀ p ∈ CodeAnalyzer.init.security_patterns,
        nullEngine.search "i" p.2 "x" = true → nullEngine.finditer "i" p.2 "x" ≠ []) ∧
    (security_analysis nullEngine CodeAnalyzer.init "x").score ≤
      (calculate_metrics nullEngine CodeAnalyzer.init exIfTree "x").security_score :=
  ⟨fun p _ hc => by simp [nullEngine] at hc,
   c10_security_score_order nullEngine CodeAnalyzer.init exIfTree "x"
     fun p _ hc => by simp [nullEngine] at hc⟩

theorem merge_nil (s : ReviewSections) : merge_sections s (fun _ => []) = s := by
  simp [merge_sections, joinWithSpace, String.append_empty]

theorem merge_add (s : ReviewSections) (sec0 : RSection) (line : String)
    (f : RSection → List String) :
    merge_sections (addLine s sec0 line) f =
      merge_sections s (fun sec => (if sec0 = sec then [line] else []) ++ f sec) := by
  cases sec0 <;>
    simp [merge_sections, addLine, joinWithSpace, String.append_assoc, List.append_assoc]

theorem parse_fold_merge :
    ∀ (ls : List String) (cur : Option RSection) (s : ReviewSections),
      (ls.foldl parse_step (cur, s)).2 =
        merge_sections s (fun sec => assigned_lines sec cur ls)
  | [], cur, s => by
    simp only [List.foldl_nil, assigned_lines]
    exact (merge_nil s).symm
  | l :: ls, cur, s => by
    rw [List.foldl_cons]
    by_cases h0 : pyStrip l = ""
    · rw [show parse_step (cur, s) l = (cur, s) by simp [parse_step, h0]]
      rw [parse_fold_merge ls cur s]
      congr 1
      funext sec
      simp [assigned_lines, h0]
    · cases hd : detect_section (pyLower (pyStrip l)) with
      | some sec0 =>
        by_cases hh : pyStartsWith (pyStrip l) "#"
        · rw [show parse_step (cur, s) l = (some sec0, s) by
            simp [parse_step, h0, hd, hh]]
          rw [parse_fold_merge ls (some sec0) s]
          congr 1
          funext sec
          simp [assigned_lines, h0, hd, hh]
        · rw [show parse_step (cur, s) l = (some sec0, addLine s sec0 (pyStrip l)) by
            simp [parse_step, h0, hd, hh]]
          rw [parse_fold_merge ls (some sec0) (addLine s sec0 (pyStrip l)), merge_add]
          congr 1
          funext sec
          simp [assigned_lines, h0, hd, hh]
      | none =>
        cases cur with
        | none =>
          rw [show parse_step (none, s) l = (none, s) by simp [parse_step, h0, hd]]
          rw [parse_fold_merge ls none s]
          congr 1
          funext sec
          simp [assigned_lines, h0, hd]
        | some c0 =>
          by_cases hh : pyStartsWith (pyStrip l) "#"
          · rw [show parse_step (some c0, s) l = (some c0, s) by
              simp [parse_step, h0, hd, hh]]
            rw [parse_fold_merge ls (some c0) s]
            congr 1
            funext sec
            simp [assigned_lines, h0, hd, hh]
          · rw [show parse_step (some c0, s) l = (some c0, addLine s c0 (pyStrip l)) by
              simp [parse_step, h0, hd, hh]]
            rw [parse_fold_merge ls (some c0) (addLine s c0 (pyStrip l)), merge_add]
            congr 1
            funext sec
            simp [assigned_lines, h0, hd, hh]

/-- Claim C7, counterexample: the non-empty line `"#note"` follows a
matched header (`"Overall"`), yet the parser drops it — lines starting
with `#` are never assigned to any section, contradicting the claim
that every non-empty line goes to the section of the most recently
matched keyword header. -/
theorem c7_hash_counterexample :
    parse_review_response "Overall\n#note" ≠ claim_parse "Overall\n#note" := by decide

/-- Claim C7, amended: `_parse_review_response` returns the eight fixed
sections, assigning each non-empty line that does not start with `#` to
the section of the most recently matched keyword header and dropping
lines seen before any keyword matches. -/
theorem c7_amended_sections :
    ∀ response : String, parse_review_response response = spec_parse response := by
  intro r
  rw [parse_review_response, spec_parse, parse_fold_merge]
  simp [merge_sections, sections_of_assignment, emptySections, String.empty_append]
